/-
Verification of the Cosmo Climb platformer core against its natural-language
specification.

The development shallowly embeds the game logic of
`src/game/src/scenes/CosmoClimb.ts` and the richer scene variant
`src/unnamed/part_000` (class CosmoClimbScene).  All machine numbers are
modelled as rationals; Math.random() draws are modelled as an explicit stream
of rationals in [0, 1).  The jump impulse `jumpVelocity`
(= -Math.sqrt(2 * gravity * jumpHeight), an irrational real) and the maximal
horizontal jump reach (= maxVelocityX * Math.sqrt(2 * jumpHeight / gravity))
are carried as parameters, since every property of interest is relational in
them.

Part 1 embeds the reachability post-process of `init` (part_000 lines
144-178): the loop that, for each platform lacking a platform above it within
the jump envelope, synthesizes one safe platform — unless the synthesized
height would lie above the map ceiling (`if (newY < initialMaxY) continue`),
in which case the platform is left unreachable.  The source's `for` loop over
a growing sorted array is embedded as a fuel-indexed recursion over a
processed prefix (`done`) and an unprocessed suffix (`todo`); a synthesized
platform is re-inserted into the unprocessed suffix at its sorted position,
exactly where the source's `push` + re-`sort` places it (strictly above the
current index, since newY < p.y).

Part 2 embeds the per-frame `update` of part_000 (lines 422-625) as a
composition of stage functions in source order, together with the input
handlers `handleTilt` / `handleKeyDown` / `handleKeyUp`, the helpers
`updateSolarStorm`, `startGame` and `calibrateTiltControls`, and an event
step relation.  Calls to showGameOver() / showWinOverlay() are modelled by
counters (each call creates one overlay and schedules one onGameOver
callback, so the counters count overlay creations and scheduled callbacks).
-/
import Mathlib

/- The Batteries rational-number operations are `@[irreducible]`; concrete
runs of the embedded code are evaluated by `decide`, which needs them to
unfold. -/
attribute [local semireducible] Rat.add Rat.mul Rat.inv Rat.sub Rat.ofScientific

/-! ## Part 1: level generation post-process (reachability synthesis) -/

/-- jumpHeight constant of the scene (pixels). -/
def jumpHeight : ℚ := 180

/-- Platform as seen by the generation post-process: creation-time
coordinates and category (`platform-broken.png` = collapsing). -/
structure GPlat where
  x : ℚ
  y : ℚ
  broken : Bool
deriving DecidableEq, Repr

/-- The reachability test of the post-process (part_000 lines 154-159):
platform `q` lies strictly above `p`, within `maxJumpHeight` vertically and
within `reach` (= maxHorizontalReach) horizontally. -/
def reachOK (reach : ℚ) (p q : GPlat) : Prop :=
  q.y < p.y ∧ p.y - jumpHeight < q.y ∧ |q.x - p.x| ≤ reach

instance (reach : ℚ) (p q : GPlat) : Decidable (reachOK reach p q) := by
  unfold reachOK; infer_instance

/-- `platforms.some(q => q !== p && ...)` with `p` excluded positionally:
`others` is the list of all platforms other than `p`. -/
def anyReachB (reach : ℚ) (others : List GPlat) (p : GPlat) : Bool :=
  others.any (fun q => decide (reachOK reach p q))

/-- Synthesized height: `p.y - maxJumpHeight * (0.7 + Math.random() * 0.3)`. -/
def synthY (p : GPlat) (r : ℚ) : ℚ := p.y - jumpHeight * (0.7 + r * 0.3)

/-- Synthesized x:
`minX + Math.random() * (maxX - minX)` with
`minX = max(60, p.x - reach)`, `maxX = min(width - 60, p.x + reach)`. -/
def synthX (w reach : ℚ) (p : GPlat) (r : ℚ) : ℚ :=
  let minX := max 60 (p.x - reach)
  let maxX := min (w - 60) (p.x + reach)
  minX + r * (maxX - minX)

/-- Insert a platform into a list sorted by descending `y` (bottom first),
after all entries that are not strictly above it — where the source's
`push` followed by a stable re-`sort((a,b) => b.y - a.y)` places it. -/
def insertDesc (q : GPlat) : List GPlat → List GPlat
  | [] => [q]
  | p :: rest => if q.y ≤ p.y then p :: insertDesc q rest else q :: p :: rest

/-- Number of synthesis steps that can start at height `y` before dropping
below the ceiling `maxY`: each synthesis descends by at least
`jumpHeight * 0.7 = 126`. -/
def stepsTo (maxY y : ℚ) : ℕ := (⌈(y - maxY) / 126⌉).toNat

/-- Fuel sufficient to run the post-process on `l`: one unit per platform
plus one per possible synthesis. -/
def fuelNeed (maxY : ℚ) (l : List GPlat) : ℕ :=
  (l.map (fun p => 1 + stepsTo maxY p.y)).sum

/-- The post-process loop of `init` (part_000 lines 151-178).  `done` is the
processed prefix of the sorted array, `todo` the unprocessed suffix, `k` the
index of the next Math.random() draw (a synthesis consumes three draws: newY,
newX and the texture pick).  Fuel-exhaustion returns the remaining platforms
unprocessed; `fuelNeed` fuel always suffices. -/
def ensure (w reach maxY : ℚ) (rng : ℕ → ℚ) :
    ℕ → ℕ → List GPlat → List GPlat → List GPlat
  | 0, _, done, todo => done ++ todo
  | _ + 1, _, done, [] => done
  | fuel + 1, k, done, p :: rest =>
    if anyReachB reach (done ++ rest) p then
      ensure w reach maxY rng fuel k (done ++ [p]) rest
    else if synthY p (rng k) < maxY then
      ensure w reach maxY rng fuel (k + 1) (done ++ [p]) rest
    else
      ensure w reach maxY rng fuel (k + 3) (done ++ [p])
        (insertDesc ⟨synthX w reach p (rng (k + 1)), synthY p (rng k), false⟩ rest)

/-- Descending-`y` order used by `platforms.sort((a, b) => b.y - a.y)`. -/
def gpGE (a b : GPlat) : Prop := b.y ≤ a.y

instance : DecidableRel gpGE := fun a b => inferInstanceAs (Decidable (b.y ≤ a.y))

/-- Sort platforms bottom-to-top (descending `y`). -/
def sortDesc (l : List GPlat) : List GPlat := l.insertionSort gpGE

/-- The whole post-process: sort by height, then walk the array fixing
unreachable platforms (part_000 lines 149-178). -/
def postProcess (w reach maxY : ℚ) (rng : ℕ → ℚ) (fuel : ℕ)
    (l : List GPlat) : List GPlat :=
  ensure w reach maxY rng fuel 0 [] (sortDesc l)

/-! ## Part 2: the per-frame update and the input handlers -/

/-- Scene constant `gravity = 0.055`. -/
def gravity : ℚ := 0.055

/-- Scene constant `platformWidth = 100`. -/
def platformWidth : ℚ := 100

/-- Scene constant `platformHeight = 20`. -/
def platformHeight : ℚ := 20

/-- Scene constant `maxVelocityX = 7`. -/
def maxVelocityX : ℚ := 7

/-- Scene constant `solarStormSpeed = 0.7`. -/
def solarStormSpeed : ℚ := 0.7

/-- Pickup kind (`'rocket' | 'powercell'`). -/
inductive PKind where
  | rocket
  | powercell
deriving DecidableEq, Repr

/-- A pickup attached to a platform: its kind and the screen-space y of its
sprite. -/
structure Powerup where
  kind : PKind
  py : ℚ
deriving DecidableEq, Repr

/-- A live platform: sprite screen coordinates (the fields read by collision,
camera shift and culling), category, and optional pickup. -/
structure Plat where
  x : ℚ
  y : ℚ
  broken : Bool
  powerup : Option Powerup
deriving DecidableEq, Repr

/-- A live monster: sprite screen coordinates and drift velocity. -/
structure Monster where
  x : ℚ
  y : ℚ
  vx : ℚ
  vy : ℚ
deriving DecidableEq, Repr

/-- Per-run parameters: renderer width/height, the jump impulse
`jumpVelocity` (negative; -sqrt(2 * gravity * jumpHeight) in the source),
the ticker's `deltaMS`, the solar-storm sprite height, and `spawnY`. -/
structure Params where
  w : ℚ
  h : ℚ
  jumpVelocity : ℚ
  dt : ℚ
  stormH : ℚ
  spawnY : ℚ

/-- The mutable scene state touched by the update loop and the input
handlers.  `gameOverCount` and `winCount` count the calls to showGameOver()
and showWinOverlay() (each creates one overlay and schedules one onGameOver
callback). -/
structure GState where
  alienX : ℚ
  alienY : ℚ
  alienWorldY : ℚ
  velocityX : ℚ
  velocityY : ℚ
  tilt : ℚ
  keyboardTilt : ℚ
  usingKeyboard : Bool
  score : ℤ
  highestY : ℚ
  isGameOver : Bool
  gameStarted : Bool
  rocketActive : Bool
  rocketTimer : ℚ
  powercellActive : Bool
  platforms : List Plat
  monsters : List Monster
  stormScreenY : ℚ
  solarStormY : ℚ
  bgY : ℚ
  gameOverCount : ℕ
  winCount : ℕ
deriving DecidableEq, Repr

/-- `effectiveTilt = this.usingKeyboard ? this.keyboardTilt : this.tilt`. -/
def steering (s : GState) : ℚ :=
  if s.usingKeyboard then s.keyboardTilt else s.tilt

/-- Update lines 426-429: while the keyboard is in use the tilt influence
decays geometrically (`this.tilt *= 0.9`). -/
def stInput (s : GState) : GState :=
  if s.usingKeyboard then { s with tilt := s.tilt * 0.9 } else s

/-- Update lines 431-460: steering to horizontal velocity (accelerate by
0.3, damp by 0.92, clamp to ±maxVelocityX), move and wrap the alien
horizontally, then rocket thrust or gravity, then vertical movement of both
screen and world y. -/
def stMove (P : Params) (s : GState) : GState :=
  let vx := max (-maxVelocityX) (min maxVelocityX ((s.velocityX + steering s * 0.3) * 0.92))
  let ax0 := s.alienX + vx
  let ax1 := if ax0 < 0 then P.w else ax0
  let ax2 := if ax1 > P.w then 0 else ax1
  if s.rocketActive then
    let vy := -(|P.jumpVelocity| * 0.95)
    let t := s.rocketTimer - P.dt
    { s with
      velocityX := vx
      alienX := ax2
      velocityY := vy
      rocketTimer := t
      rocketActive := if t ≤ 0 then false else s.rocketActive
      alienY := s.alienY + vy
      alienWorldY := s.alienWorldY + vy }
  else
    let vy := s.velocityY + gravity
    { s with
      velocityX := vx
      alienX := ax2
      velocityY := vy
      alienY := s.alienY + vy
      alienWorldY := s.alienWorldY + vy }

/-- The platform hit test of update lines 475-478: the alien's feet are
within half the platform box on both axes. -/
def hitTest (ax ay : ℚ) (p : Plat) : Bool :=
  decide (|ax - p.x| < platformWidth / 2 ∧ |ay + 24 - p.y| < platformHeight / 2)

/-- Index of the first platform (iteration order) passing the hit test. -/
def findHitIdx (ax ay : ℚ) (ps : List Plat) : Option ℕ :=
  ps.findIdx? (hitTest ax ay)

/-- Resolution of a landing on platform `i` (update lines 479-541): set the
jump impulse (a consumed pending powercell multiplies it by 1.7), apply the
platform's own pickup (rocket arms the thrust timer; powercell re-applies the
1.7 bounce immediately and is consumed), remove the pickup, and delete the
platform when it is a collapsing one. -/
def resolveHit (P : Params) (s : GState) (i : ℕ) (p : Plat) : GState :=
  let jumpV := if s.powercellActive then P.jumpVelocity * 1.7 else P.jumpVelocity
  let pc := if s.powercellActive then false else s.powercellActive
  let s1 := { s with velocityY := jumpV, powercellActive := pc }
  let s2 :=
    match p.powerup with
    | some u =>
      match u.kind with
      | PKind.rocket =>
        { s1 with
          rocketActive := true
          rocketTimer := 4000
          platforms := s1.platforms.set i { p with powerup := none } }
      | PKind.powercell =>
        { s1 with
          velocityY := P.jumpVelocity * 1.7
          powercellActive := false
          platforms := s1.platforms.set i { p with powerup := none } }
    | none => s1
  if p.broken then { s2 with platforms := s2.platforms.eraseIdx i } else s2

/-- Update lines 471-543: platform collision, attempted only while not
thrusting and falling, resolved against the first matching platform. -/
def stCollide (P : Params) (s : GState) : GState :=
  if !s.rocketActive && decide (0 < s.velocityY) then
    match findHitIdx s.alienX s.alienY s.platforms with
    | some i =>
      match s.platforms[i]? with
      | some p => resolveHit P s i p
      | none => s
    | none => s
  else s

/-- Camera shift applied to one platform: its sprite and its pickup sprite
both move down by `dy`. -/
def shiftPlat (dy : ℚ) (p : Plat) : Plat :=
  { p with
    y := p.y + dy
    powerup := p.powerup.map (fun u => { u with py := u.py + dy }) }

/-- Update lines 544-564: when the alien is above the screen midpoint, pin it
back to the midpoint and move every platform (and pickup), monster, the
storm sprite and the background tiling down by the same delta; accumulate
the delta into `highestY` and add its integer part to the score. -/
def stCamera (P : Params) (s : GState) : GState :=
  if s.alienY < P.h / 2 then
    let dy := P.h / 2 - s.alienY
    { s with
      alienY := P.h / 2
      highestY := s.highestY - dy
      score := s.score + Rat.floor dy
      platforms := s.platforms.map (shiftPlat dy)
      monsters := s.monsters.map (fun m => { m with y := m.y + dy })
      stormScreenY := s.stormScreenY + dy
      bgY := s.bgY + dy }
  else s

/-- updateSolarStorm lines 854-867: the storm's world edge climbs by
`solarStormSpeed`, is clamped to at most 500 below the alien's top, and the
sprite's screen y is re-derived from world position and camera anchor. -/
def stormMove (s : GState) : GState :=
  let w1 := s.solarStormY - solarStormSpeed
  let cap := (s.alienY - 24) + 500
  let w2 := if w1 - s.highestY > cap then s.highestY + cap else w1
  { s with solarStormY := w2, stormScreenY := w2 - s.highestY }

/-- updateSolarStorm lines 873-890: axis-aligned overlap between the storm
rectangle (x = 0, width = renderer width) and the alien's bounding box. -/
def stormHit (P : Params) (s : GState) : Bool :=
  decide ((s.alienY + 24 > s.stormScreenY ∧ s.alienY - 24 < s.stormScreenY + P.stormH)
    ∧ (s.alienX + 24 > 0 ∧ s.alienX - 24 < P.w))

/-- The whole updateSolarStorm step: movement, clamping, screen-position
derivation and lethal overlap check. -/
def updateSolarStorm (P : Params) (s : GState) : GState :=
  let s1 := stormMove s
  if stormHit P s1 then
    { s1 with isGameOver := true, gameOverCount := s1.gameOverCount + 1 }
  else s1

/-- Update lines 570-588: cull monsters and platforms whose sprite has gone
more than 50px below the screen. -/
def stCull (P : Params) (s : GState) : GState :=
  { s with
    monsters := s.monsters.filter (fun m => decide (¬m.y > P.h + 50))
    platforms := s.platforms.filter (fun p => decide (¬p.y > P.h + 50)) }

/-- One monster's bounded random walk (update lines 592-596): move by its
velocity, then reflect the velocity at the inner margins. -/
def monsterStep (P : Params) (m : Monster) : Monster :=
  let x := m.x + m.vx
  let y := m.y + m.vy
  { x := x
    y := y
    vx := if x < 24 ∨ x > P.w - 24 then -m.vx else m.vx
    vy := if y < 0 ∨ y > P.h - 200 then -m.vy else m.vy }

/-- The lethal monster proximity test (update lines 598-601), applied to the
monster's moved position. -/
def monsterHit (ax ay : ℚ) (m : Monster) : Bool :=
  decide (|ax - m.x| < 32 ∧ |ay - m.y| < 32)

/-- Number of monsters whose moved position collides with the alien this
frame; the loop body fires showGameOver() once per such monster. -/
def monsterHits (P : Params) (s : GState) : ℕ :=
  ((s.monsters.map (monsterStep P)).filter (monsterHit s.alienX s.alienY)).length

/-- Update lines 590-606: every monster moves and bounces; each one that
overlaps the alien sets the terminal flag and fires showGameOver() (the loop
has no break and no terminal guard). -/
def stMonsters (P : Params) (s : GState) : GState :=
  { s with
    monsters := s.monsters.map (monsterStep P)
    isGameOver := s.isGameOver || decide (0 < monsterHits P s)
    gameOverCount := s.gameOverCount + monsterHits P s }

/-- Update lines 607-612: falling below the viewport bottom is lethal. -/
def stFall (P : Params) (s : GState) : GState :=
  if s.alienY > P.h then
    { s with isGameOver := true, gameOverCount := s.gameOverCount + 1 }
  else s

/-- Update lines 613-618: reaching 5000 climbed world units fires the win
overlay (unconditionally — the check does not consult `isGameOver`). -/
def stWin (P : Params) (s : GState) : GState :=
  if P.spawnY - s.alienWorldY ≥ 5000 then
    { s with isGameOver := true, winCount := s.winCount + 1 }
  else s

/-- One frame of `update` (part_000 lines 422-625): an inactive frame
(terminal or not yet started) returns immediately; otherwise the stages run
in source order. -/
def update (P : Params) (s : GState) : GState :=
  if s.isGameOver || !s.gameStarted then s
  else
    stWin P (stFall P (stMonsters P (stCull P (updateSolarStorm P
      (stCamera P (stCollide P (stMove P (stInput s))))))))

/-! ### Input handlers and event steps -/

/-- handleTilt (part_000 lines 340-386): ignored while the keyboard is in
use or when either axis reading is null; otherwise the axis with the larger
magnitude is selected, a 5-degree dead zone zeroes it, it is clamped to ±30
degrees, rescaled to [-1, 1] and damped by 0.8. -/
def handleTilt (gamma beta : Option ℚ) (s : GState) : GState :=
  if s.usingKeyboard then s
  else
    match gamma, beta with
    | some ga, some be =>
      let tiltValue := if |ga| > |be| then ga else be
      let tv := if |tiltValue| < 5 then 0 else tiltValue
      let normalizedTilt := max (-30) (min 30 tv)
      { s with tilt := normalizedTilt / 30 * 0.8 }
    | _, _ => s

/-- `e.key` matches the left-steering keys. -/
def isLeftKey (k : String) : Bool := k = "ArrowLeft" || k = "a" || k = "A"

/-- `e.key` matches the right-steering keys. -/
def isRightKey (k : String) : Bool := k = "ArrowRight" || k = "d" || k = "D"

/-- handleKeyDown (lines 402-410): a held steering key contributes a fixed
±0.4 and makes the keyboard the dominant source. -/
def handleKeyDown (k : String) (s : GState) : GState :=
  if isLeftKey k then { s with keyboardTilt := -0.4, usingKeyboard := true }
  else if isRightKey k then { s with keyboardTilt := 0.4, usingKeyboard := true }
  else s

/-- handleKeyUp (lines 412-420): releasing a steering key zeroes the
keyboard contribution and releases dominance. -/
def handleKeyUp (k : String) (s : GState) : GState :=
  if isLeftKey k || isRightKey k then
    { s with keyboardTilt := 0, usingKeyboard := false }
  else s

/-- calibrateTiltControls (lines 395-400), invoked on orientation change. -/
def calibrateTiltControls (s : GState) : GState :=
  { s with tilt := 0, velocityX := 0 }

/-- startGame (lines 808-829): arm the run and reset the steering state. -/
def startGame (s : GState) : GState :=
  { s with
    gameStarted := true
    tilt := 0
    velocityX := 0
    usingKeyboard := false
    keyboardTilt := 0 }

/-- The push-based inputs reaching the scene, plus the ticker frame. -/
inductive Event where
  | tiltEv (gamma beta : Option ℚ)
  | keyDown (k : String)
  | keyUp (k : String)
  | orientEv
  | startEv
  | frameEv
deriving Repr

/-- Dispatch one event to its handler. -/
def step (P : Params) (s : GState) : Event → GState
  | Event.tiltEv g b => handleTilt g b s
  | Event.keyDown k => handleKeyDown k s
  | Event.keyUp k => handleKeyUp k s
  | Event.orientEv => calibrateTiltControls s
  | Event.startEv => startGame s
  | Event.frameEv => update P s

/-- Run an arbitrary sequence of input events and frames. -/
def runEvents (P : Params) (s : GState) (evs : List Event) : GState :=
  evs.foldl (step P) s

/-- The steering-state invariant maintained by the input normalizer: the
tilt contribution has magnitude at most 0.8 and the keyboard contribution is
one of 0, +0.4, -0.4. -/
def steerInv (s : GState) : Prop :=
  |s.tilt| ≤ 0.8 ∧ (s.keyboardTilt = 0 ∨ s.keyboardTilt = 0.4 ∨ s.keyboardTilt = -0.4)

/-! ### Concrete run configurations used to exercise the theorems -/

/-- A concrete run parameterisation: a 400x600 viewport, jump impulse -4,
16 ms frames, a 100px storm sprite, spawn row at y = 480. -/
def baseParams : Params := ⟨400, 600, -4, 16, 100, 480⟩

/-- A concrete mid-run state: the alien at rest at (200, 400) with the storm
840px below the camera anchor, no platforms and no monsters. -/
def baseState : GState where
  alienX := 200
  alienY := 400
  alienWorldY := 400
  velocityX := 0
  velocityY := 0
  tilt := 0
  keyboardTilt := 0
  usingKeyboard := false
  score := 0
  highestY := 400
  isGameOver := false
  gameStarted := true
  rocketActive := false
  rocketTimer := 0
  powercellActive := false
  platforms := []
  monsters := []
  stormScreenY := 840
  solarStormY := 1240
  bgY := 0
  gameOverCount := 0
  winCount := 0

/-- A frame state in which two monsters simultaneously overlap the alien. -/
def twoMonsterState : GState :=
  { baseState with monsters := [⟨200, 410, 0, 0⟩, ⟨200, 410, 0, 0⟩] }

/-- A frame state in which the climbed height has passed the 5000 target and
a monster simultaneously overlaps the alien. -/
def winCollideState : GState :=
  { baseState with alienWorldY := -4600, monsters := [⟨200, 410, 0, 0⟩] }

/-- A frame state in which the alien has risen above the screen midpoint, so
the camera shifts, with a platform carrying a pickup and a monster live. -/
def camState : GState :=
  { baseState with
    alienY := 200
    platforms := [⟨200, 260, false, some ⟨PKind.rocket, 236⟩⟩]
    monsters := [⟨100, 100, 1, 1⟩] }

/-- A frame state in which the alien is falling onto a collapsing platform. -/
def brokenLandState : GState :=
  { baseState with
    alienY := 350
    velocityY := 2
    platforms := [⟨200, 380, true, none⟩] }

/-- A frame state in which the alien is falling onto a stable platform with
the bounce-boost flag pending. -/
def boostLandState : GState :=
  { baseState with
    alienY := 350
    velocityY := 2
    powercellActive := true
    platforms := [⟨200, 380, false, none⟩] }

/-- A frame state in which the timed thrust is active. -/
def rocketRunState : GState :=
  { baseState with rocketActive := true, rocketTimer := 4000 }

/-- A generation-shaped level on a 500px-wide viewport with spawn row at
y = 800 and map ceiling at y = -4200: a full bottom row of six stable
platforms plus a chain climbing in 77px steps (within the randomized
60 * [0.5, 1.3) vertical spacing of the generator and the 80px minimum
separation) whose topmost platform sits 49px below the ceiling. -/
def levelC1 : List GPlat :=
  (List.range 6).map (fun i => ⟨100 * i, 800, false⟩) ++
    (List.range 64).map (fun i => ⟨if i % 2 = 0 then 150 else 350, 700 - 77 * i, false⟩)

/-- The post-process output on `levelC1` (horizontal reach 566, constant
zero random stream, ample fuel). -/
def outC1 : List GPlat := postProcess 500 566 (-4200) (fun _ => 0) 200 levelC1

/-! ## Stage bookkeeping lemmas -/

theorem stInput_keyboardTilt (s : GState) : (stInput s).keyboardTilt = s.keyboardTilt := by
  unfold stInput; split <;> rfl

theorem stInput_usingKeyboard (s : GState) : (stInput s).usingKeyboard = s.usingKeyboard := by
  unfold stInput; split <;> rfl

theorem stInput_score (s : GState) : (stInput s).score = s.score := by
  unfold stInput; split <;> rfl

theorem stInput_solar (s : GState) : (stInput s).solarStormY = s.solarStormY := by
  unfold stInput; split <;> rfl

theorem stInput_winCount (s : GState) : (stInput s).winCount = s.winCount := by
  unfold stInput; split <;> rfl

theorem stInput_gameOverCount (s : GState) : (stInput s).gameOverCount = s.gameOverCount := by
  unfold stInput; split <;> rfl

theorem stInput_tilt (s : GState) :
    (stInput s).tilt = s.tilt ∨ (stInput s).tilt = s.tilt * 0.9 := by
  unfold stInput; split
  · exact Or.inr rfl
  · exact Or.inl rfl

theorem stMove_tilt (P : Params) (s : GState) : (stMove P s).tilt = s.tilt := by
  unfold stMove; split <;> rfl

theorem stMove_keyboardTilt (P : Params) (s : GState) :
    (stMove P s).keyboardTilt = s.keyboardTilt := by
  unfold stMove; split <;> rfl

theorem stMove_usingKeyboard (P : Params) (s : GState) :
    (stMove P s).usingKeyboard = s.usingKeyboard := by
  unfold stMove; split <;> rfl

theorem stMove_score (P : Params) (s : GState) : (stMove P s).score = s.score := by
  unfold stMove; split <;> rfl

theorem stMove_solar (P : Params) (s : GState) : (stMove P s).solarStormY = s.solarStormY := by
  unfold stMove; split <;> rfl

theorem stMove_winCount (P : Params) (s : GState) : (stMove P s).winCount = s.winCount := by
  unfold stMove; split <;> rfl

theorem stMove_gameOverCount (P : Params) (s : GState) :
    (stMove P s).gameOverCount = s.gameOverCount := by
  unfold stMove; split <;> rfl

theorem stMove_powercell (P : Params) (s : GState) :
    (stMove P s).powercellActive = s.powercellActive := by
  unfold stMove; split <;> rfl

theorem stMove_platforms (P : Params) (s : GState) : (stMove P s).platforms = s.platforms := by
  unfold stMove; split <;> rfl

theorem resolveHit_score (P : Params) (s : GState) (i : ℕ) (p : Plat) :
    (resolveHit P s i p).score = s.score := by
  unfold resolveHit
  repeat' split
  all_goals rfl

theorem resolveHit_tilt (P : Params) (s : GState) (i : ℕ) (p : Plat) :
    (resolveHit P s i p).tilt = s.tilt := by
  unfold resolveHit
  repeat' split
  all_goals rfl

theorem resolveHit_keyboardTilt (P : Params) (s : GState) (i : ℕ) (p : Plat) :
    (resolveHit P s i p).keyboardTilt = s.keyboardTilt := by
  unfold resolveHit
  repeat' split
  all_goals rfl

theorem resolveHit_usingKeyboard (P : Params) (s : GState) (i : ℕ) (p : Plat) :
    (resolveHit P s i p).usingKeyboard = s.usingKeyboard := by
  unfold resolveHit
  repeat' split
  all_goals rfl

theorem resolveHit_solar (P : Params) (s : GState) (i : ℕ) (p : Plat) :
    (resolveHit P s i p).solarStormY = s.solarStormY := by
  unfold resolveHit
  repeat' split
  all_goals rfl

theorem resolveHit_worldY (P : Params) (s : GState) (i : ℕ) (p : Plat) :
    (resolveHit P s i p).alienWorldY = s.alienWorldY := by
  unfold resolveHit
  repeat' split
  all_goals rfl

theorem resolveHit_winCount (P : Params) (s : GState) (i : ℕ) (p : Plat) :
    (resolveHit P s i p).winCount = s.winCount := by
  unfold resolveHit
  repeat' split
  all_goals rfl

theorem resolveHit_gameOverCount (P : Params) (s : GState) (i : ℕ) (p : Plat) :
    (resolveHit P s i p).gameOverCount = s.gameOverCount := by
  unfold resolveHit
  repeat' split
  all_goals rfl

theorem stCollide_score (P : Params) (s : GState) : (stCollide P s).score = s.score := by
  unfold stCollide
  split <;> (try split) <;> (try split) <;> first | rfl | apply resolveHit_score

theorem stCollide_tilt (P : Params) (s : GState) : (stCollide P s).tilt = s.tilt := by
  unfold stCollide
  split <;> (try split) <;> (try split) <;> first | rfl | apply resolveHit_tilt

theorem stCollide_keyboardTilt (P : Params) (s : GState) :
    (stCollide P s).keyboardTilt = s.keyboardTilt := by
  unfold stCollide
  split <;> (try split) <;> (try split) <;> first | rfl | apply resolveHit_keyboardTilt

theorem stCollide_usingKeyboard (P : Params) (s : GState) :
    (stCollide P s).usingKeyboard = s.usingKeyboard := by
  unfold stCollide
  split <;> (try split) <;> (try split) <;> first | rfl | apply resolveHit_usingKeyboard

theorem stCollide_solar (P : Params) (s : GState) :
    (stCollide P s).solarStormY = s.solarStormY := by
  unfold stCollide
  split <;> (try split) <;> (try split) <;> first | rfl | apply resolveHit_solar

theorem stCollide_worldY (P : Params) (s : GState) :
    (stCollide P s).alienWorldY = s.alienWorldY := by
  unfold stCollide
  split <;> (try split) <;> (try split) <;> first | rfl | apply resolveHit_worldY

theorem stCollide_winCount (P : Params) (s : GState) :
    (stCollide P s).winCount = s.winCount := by
  unfold stCollide
  split <;> (try split) <;> (try split) <;> first | rfl | apply resolveHit_winCount

theorem stCollide_gameOverCount (P : Params) (s : GState) :
    (stCollide P s).gameOverCount = s.gameOverCount := by
  unfold stCollide
  split <;> (try split) <;> (try split) <;> first | rfl | apply resolveHit_gameOverCount

theorem stCamera_tilt (P : Params) (s : GState) : (stCamera P s).tilt = s.tilt := by
  unfold stCamera; split <;> rfl

theorem stCamera_keyboardTilt (P : Params) (s : GState) :
    (stCamera P s).keyboardTilt = s.keyboardTilt := by
  unfold stCamera; split <;> rfl

theorem stCamera_usingKeyboard (P : Params) (s : GState) :
    (stCamera P s).usingKeyboard = s.usingKeyboard := by
  unfold stCamera; split <;> rfl

theorem stCamera_velocityY (P : Params) (s : GState) :
    (stCamera P s).velocityY = s.velocityY := by
  unfold stCamera; split <;> rfl

theorem stCamera_powercell (P : Params) (s : GState) :
    (stCamera P s).powercellActive = s.powercellActive := by
  unfold stCamera; split <;> rfl

theorem stCamera_rocket (P : Params) (s : GState) :
    (stCamera P s).rocketActive = s.rocketActive := by
  unfold stCamera; split <;> rfl

theorem stCamera_solar (P : Params) (s : GState) :
    (stCamera P s).solarStormY = s.solarStormY := by
  unfold stCamera; split <;> rfl

theorem stCamera_worldY (P : Params) (s : GState) :
    (stCamera P s).alienWorldY = s.alienWorldY := by
  unfold stCamera; split <;> rfl

theorem stCamera_winCount (P : Params) (s : GState) :
    (stCamera P s).winCount = s.winCount := by
  unfold stCamera; split <;> rfl

theorem stCamera_gameOverCount (P : Params) (s : GState) :
    (stCamera P s).gameOverCount = s.gameOverCount := by
  unfold stCamera; split <;> rfl

theorem stCamera_score (P : Params) (s : GState) :
    (stCamera P s).score =
      s.score + (if s.alienY < P.h / 2 then Rat.floor (P.h / 2 - s.alienY) else 0) := by
  unfold stCamera; split <;> simp

theorem storm_tilt (P : Params) (s : GState) : (updateSolarStorm P s).tilt = s.tilt := by
  unfold updateSolarStorm stormMove; dsimp only; split <;> split <;> rfl

theorem storm_keyboardTilt (P : Params) (s : GState) :
    (updateSolarStorm P s).keyboardTilt = s.keyboardTilt := by
  unfold updateSolarStorm stormMove; dsimp only; split <;> split <;> rfl

theorem storm_usingKeyboard (P : Params) (s : GState) :
    (updateSolarStorm P s).usingKeyboard = s.usingKeyboard := by
  unfold updateSolarStorm stormMove; dsimp only; split <;> split <;> rfl

theorem storm_score (P : Params) (s : GState) : (updateSolarStorm P s).score = s.score := by
  unfold updateSolarStorm stormMove; dsimp only; split <;> split <;> rfl

theorem storm_velocityY (P : Params) (s : GState) :
    (updateSolarStorm P s).velocityY = s.velocityY := by
  unfold updateSolarStorm stormMove; dsimp only; split <;> split <;> rfl

theorem storm_powercell (P : Params) (s : GState) :
    (updateSolarStorm P s).powercellActive = s.powercellActive := by
  unfold updateSolarStorm stormMove; dsimp only; split <;> split <;> rfl

theorem storm_rocket (P : Params) (s : GState) :
    (updateSolarStorm P s).rocketActive = s.rocketActive := by
  unfold updateSolarStorm stormMove; dsimp only; split <;> split <;> rfl

theorem storm_alienY (P : Params) (s : GState) :
    (updateSolarStorm P s).alienY = s.alienY := by
  unfold updateSolarStorm stormMove; dsimp only; split <;> split <;> rfl

theorem storm_highestY (P : Params) (s : GState) :
    (updateSolarStorm P s).highestY = s.highestY := by
  unfold updateSolarStorm stormMove; dsimp only; split <;> split <;> rfl

theorem storm_worldY (P : Params) (s : GState) :
    (updateSolarStorm P s).alienWorldY = s.alienWorldY := by
  unfold updateSolarStorm stormMove; dsimp only; split <;> split <;> rfl

theorem storm_winCount (P : Params) (s : GState) :
    (updateSolarStorm P s).winCount = s.winCount := by
  unfold updateSolarStorm stormMove; dsimp only; split <;> split <;> rfl

theorem storm_gameOverCount_ge (P : Params) (s : GState) :
    s.gameOverCount ≤ (updateSolarStorm P s).gameOverCount := by
  unfold updateSolarStorm stormMove; dsimp only
  split <;> split <;> first | exact Nat.le_succ _ | exact Nat.le_refl _

theorem stCull_score (P : Params) (s : GState) : (stCull P s).score = s.score := rfl

theorem stCull_tilt (P : Params) (s : GState) : (stCull P s).tilt = s.tilt := rfl

theorem stCull_keyboardTilt (P : Params) (s : GState) :
    (stCull P s).keyboardTilt = s.keyboardTilt := rfl

theorem stCull_usingKeyboard (P : Params) (s : GState) :
    (stCull P s).usingKeyboard = s.usingKeyboard := rfl

theorem stCull_velocityY (P : Params) (s : GState) : (stCull P s).velocityY = s.velocityY := rfl

theorem stCull_powercell (P : Params) (s : GState) :
    (stCull P s).powercellActive = s.powercellActive := rfl

theorem stCull_rocket (P : Params) (s : GState) :
    (stCull P s).rocketActive = s.rocketActive := rfl

theorem stCull_alienY (P : Params) (s : GState) : (stCull P s).alienY = s.alienY := rfl

theorem stCull_highestY (P : Params) (s : GState) : (stCull P s).highestY = s.highestY := rfl

theorem stCull_solar (P : Params) (s : GState) : (stCull P s).solarStormY = s.solarStormY := rfl

theorem stCull_worldY (P : Params) (s : GState) :
    (stCull P s).alienWorldY = s.alienWorldY := rfl

theorem stCull_winCount (P : Params) (s : GState) : (stCull P s).winCount = s.winCount := rfl

theorem stCull_gameOverCount (P : Params) (s : GState) :
    (stCull P s).gameOverCount = s.gameOverCount := rfl

theorem stMonsters_score (P : Params) (s : GState) : (stMonsters P s).score = s.score := rfl

theorem stMonsters_tilt (P : Params) (s : GState) : (stMonsters P s).tilt = s.tilt := rfl

theorem stMonsters_keyboardTilt (P : Params) (s : GState) :
    (stMonsters P s).keyboardTilt = s.keyboardTilt := rfl

theorem stMonsters_usingKeyboard (P : Params) (s : GState) :
    (stMonsters P s).usingKeyboard = s.usingKeyboard := rfl

theorem stMonsters_velocityY (P : Params) (s : GState) :
    (stMonsters P s).velocityY = s.velocityY := rfl

theorem stMonsters_powercell (P : Params) (s : GState) :
    (stMonsters P s).powercellActive = s.powercellActive := rfl

theorem stMonsters_rocket (P : Params) (s : GState) :
    (stMonsters P s).rocketActive = s.rocketActive := rfl

theorem stMonsters_alienY (P : Params) (s : GState) : (stMonsters P s).alienY = s.alienY := rfl

theorem stMonsters_highestY (P : Params) (s : GState) :
    (stMonsters P s).highestY = s.highestY := rfl

theorem stMonsters_solar (P : Params) (s : GState) :
    (stMonsters P s).solarStormY = s.solarStormY := rfl

theorem stMonsters_worldY (P : Params) (s : GState) :
    (stMonsters P s).alienWorldY = s.alienWorldY := rfl

theorem stMonsters_winCount (P : Params) (s : GState) :
    (stMonsters P s).winCount = s.winCount := rfl

theorem stMonsters_gameOverCount (P : Params) (s : GState) :
    (stMonsters P s).gameOverCount = s.gameOverCount + monsterHits P s := rfl

theorem stFall_score (P : Params) (s : GState) : (stFall P s).score = s.score := by
  unfold stFall; split <;> rfl

theorem stFall_tilt (P : Params) (s : GState) : (stFall P s).tilt = s.tilt := by
  unfold stFall; split <;> rfl

theorem stFall_keyboardTilt (P : Params) (s : GState) :
    (stFall P s).keyboardTilt = s.keyboardTilt := by
  unfold stFall; split <;> rfl

theorem stFall_usingKeyboard (P : Params) (s : GState) :
    (stFall P s).usingKeyboard = s.usingKeyboard := by
  unfold stFall; split <;> rfl

theorem stFall_velocityY (P : Params) (s : GState) : (stFall P s).velocityY = s.velocityY := by
  unfold stFall; split <;> rfl

theorem stFall_powercell (P : Params) (s : GState) :
    (stFall P s).powercellActive = s.powercellActive := by
  unfold stFall; split <;> rfl

theorem stFall_rocket (P : Params) (s : GState) :
    (stFall P s).rocketActive = s.rocketActive := by
  unfold stFall; split <;> rfl

theorem stFall_alienY (P : Params) (s : GState) : (stFall P s).alienY = s.alienY := by
  unfold stFall; split <;> rfl

theorem stFall_highestY (P : Params) (s : GState) : (stFall P s).highestY = s.highestY := by
  unfold stFall; split <;> rfl

theorem stFall_solar (P : Params) (s : GState) : (stFall P s).solarStormY = s.solarStormY := by
  unfold stFall; split <;> rfl

theorem stFall_worldY (P : Params) (s : GState) :
    (stFall P s).alienWorldY = s.alienWorldY := by
  unfold stFall; split <;> rfl

theorem stFall_winCount (P : Params) (s : GState) : (stFall P s).winCount = s.winCount := by
  unfold stFall; split <;> rfl

theorem stFall_gameOverCount_ge (P : Params) (s : GState) :
    s.gameOverCount ≤ (stFall P s).gameOverCount := by
  unfold stFall; split
  · exact Nat.le_succ _
  · exact Nat.le_refl _

theorem stWin_score (P : Params) (s : GState) : (stWin P s).score = s.score := by
  unfold stWin; split <;> rfl

theorem stWin_tilt (P : Params) (s : GState) : (stWin P s).tilt = s.tilt := by
  unfold stWin; split <;> rfl

theorem stWin_keyboardTilt (P : Params) (s : GState) :
    (stWin P s).keyboardTilt = s.keyboardTilt := by
  unfold stWin; split <;> rfl

theorem stWin_usingKeyboard (P : Params) (s : GState) :
    (stWin P s).usingKeyboard = s.usingKeyboard := by
  unfold stWin; split <;> rfl

theorem stWin_velocityY (P : Params) (s : GState) : (stWin P s).velocityY = s.velocityY := by
  unfold stWin; split <;> rfl

theorem stWin_powercell (P : Params) (s : GState) :
    (stWin P s).powercellActive = s.powercellActive := by
  unfold stWin; split <;> rfl

theorem stWin_rocket (P : Params) (s : GState) : (stWin P s).rocketActive = s.rocketActive := by
  unfold stWin; split <;> rfl

theorem stWin_alienY (P : Params) (s : GState) : (stWin P s).alienY = s.alienY := by
  unfold stWin; split <;> rfl

theorem stWin_highestY (P : Params) (s : GState) : (stWin P s).highestY = s.highestY := by
  unfold stWin; split <;> rfl

theorem stWin_solar (P : Params) (s : GState) : (stWin P s).solarStormY = s.solarStormY := by
  unfold stWin; split <;> rfl

theorem stWin_gameOverCount (P : Params) (s : GState) :
    (stWin P s).gameOverCount = s.gameOverCount := by
  unfold stWin; split <;> rfl

theorem stWin_mark (P : Params) (s : GState) (h : P.spawnY - s.alienWorldY ≥ 5000) :
    (stWin P s).winCount = s.winCount + 1 ∧ (stWin P s).isGameOver = true := by
  unfold stWin; rw [if_pos h]; exact ⟨rfl, rfl⟩

/-! ## Lemmas about the generation post-process -/

theorem mem_append_cons {α : Type} (x p : α) (done rest : List α) :
    x ∈ done ++ p :: rest ↔ x ∈ (done ++ [p]) ++ rest := by
  simp only [List.mem_append, List.mem_cons, List.mem_singleton]
  tauto

theorem mem_insertDesc {q x : GPlat} : ∀ {l : List GPlat},
    x ∈ insertDesc q l ↔ x = q ∨ x ∈ l := by
  intro l
  induction l with
  | nil => simp [insertDesc]
  | cons p rest ih =>
    unfold insertDesc
    split
    · simp only [List.mem_cons, ih]
      tauto
    · simp only [List.mem_cons]

theorem fuelNeed_nil (maxY : ℚ) : fuelNeed maxY [] = 0 := rfl

theorem fuelNeed_cons (maxY : ℚ) (p : GPlat) (l : List GPlat) :
    fuelNeed maxY (p :: l) = (1 + stepsTo maxY p.y) + fuelNeed maxY l := by
  simp [fuelNeed]

theorem fuelNeed_eq_zero {maxY : ℚ} {l : List GPlat} (h : fuelNeed maxY l = 0) :
    l = [] := by
  cases l with
  | nil => rfl
  | cons p t => rw [fuelNeed_cons] at h; omega

theorem fuelNeed_insertDesc (maxY : ℚ) (q : GPlat) (l : List GPlat) :
    fuelNeed maxY (insertDesc q l) = (1 + stepsTo maxY q.y) + fuelNeed maxY l := by
  induction l with
  | nil => simp [insertDesc, fuelNeed_cons, fuelNeed_nil]
  | cons p rest ih =>
    unfold insertDesc
    split
    · rw [fuelNeed_cons, ih, fuelNeed_cons]; omega
    · rw [fuelNeed_cons, fuelNeed_cons]

theorem stepsTo_lt {maxY y newY : ℚ} (h1 : maxY ≤ newY) (h2 : newY ≤ y - 126) :
    stepsTo maxY newY < stepsTo maxY y := by
  unfold stepsTo
  have h126 : (0:ℚ) < 126 := by norm_num
  have ha : (0:ℚ) ≤ (newY - maxY) / 126 := div_nonneg (by linarith) (by norm_num)
  have hab : (newY - maxY) / 126 + 1 ≤ (y - maxY) / 126 := by
    rw [le_div_iff₀ h126, add_mul, div_mul_cancel₀ _ (ne_of_gt h126), one_mul]
    linarith
  have hca : (0:ℤ) ≤ ⌈(newY - maxY) / 126⌉ := Int.ceil_nonneg ha
  have hcb : ⌈(newY - maxY) / 126⌉ + 1 ≤ ⌈(y - maxY) / 126⌉ := by
    calc ⌈(newY - maxY) / 126⌉ + 1 = ⌈(newY - maxY) / 126 + 1⌉ := (Int.ceil_add_one _).symm
      _ ≤ ⌈(y - maxY) / 126⌉ := Int.ceil_le_ceil hab
  omega

theorem synthY_le (p : GPlat) (r : ℚ) (h0 : 0 ≤ r) : synthY p r ≤ p.y - 126 := by
  unfold synthY jumpHeight
  nlinarith

theorem synthY_gt (p : GPlat) (r : ℚ) (h1 : r < 1) : p.y - jumpHeight < synthY p r := by
  unfold synthY jumpHeight
  nlinarith

theorem synthX_bounds {w reach : ℚ} (p : GPlat) (r : ℚ) (hw : 120 ≤ w)
    (hreach : 60 ≤ reach) (hx0 : 0 ≤ p.x) (hx1 : p.x ≤ w) (hr0 : 0 ≤ r) (hr1 : r < 1) :
    |synthX w reach p r - p.x| ≤ reach ∧ 0 ≤ synthX w reach p r ∧ synthX w reach p r ≤ w := by
  unfold synthX
  dsimp only
  have h1 : p.x - reach ≤ max 60 (p.x - reach) := le_max_right _ _
  have h2 : (60:ℚ) ≤ max 60 (p.x - reach) := le_max_left _ _
  have h3 : min (w - 60) (p.x + reach) ≤ p.x + reach := min_le_right _ _
  have h4 : min (w - 60) (p.x + reach) ≤ w - 60 := min_le_left _ _
  have h5 : max 60 (p.x - reach) ≤ min (w - 60) (p.x + reach) := by
    apply max_le
    · exact le_min (by linarith) (by linarith)
    · exact le_min (by linarith) (by linarith)
  have h6 : 0 ≤ r * (min (w - 60) (p.x + reach) - max 60 (p.x - reach)) :=
    mul_nonneg hr0 (by linarith)
  have h7 : r * (min (w - 60) (p.x + reach) - max 60 (p.x - reach)) ≤
      min (w - 60) (p.x + reach) - max 60 (p.x - reach) := by nlinarith
  refine ⟨abs_le.mpr ⟨by linarith, by linarith⟩, by linarith, by linarith⟩

theorem anyReachB_iff {reach : ℚ} {others : List GPlat} {p : GPlat} :
    anyReachB reach others p = true ↔ ∃ q ∈ others, reachOK reach p q := by
  simp [anyReachB, List.any_eq_true, decide_eq_true_eq]

theorem ensure_mem (w reach maxY : ℚ) (rng : ℕ → ℚ) :
    ∀ (fuel k : ℕ) (done todo : List GPlat) (x : GPlat),
      x ∈ done ++ todo → x ∈ ensure w reach maxY rng fuel k done todo := by
  intro fuel
  induction fuel with
  | zero => intro k done todo x hx; simpa [ensure] using hx
  | succ fuel ih =>
    intro k done todo x hx
    cases todo with
    | nil =>
      simp only [ensure]
      simpa using hx
    | cons p rest =>
      simp only [ensure]
      by_cases hc1 : anyReachB reach (done ++ rest) p = true
      · rw [if_pos hc1]
        exact ih _ _ _ x ((mem_append_cons x p done rest).mp hx)
      · rw [if_neg hc1]
        by_cases hc2 : synthY p (rng k) < maxY
        · rw [if_pos hc2]
          exact ih _ _ _ x ((mem_append_cons x p done rest).mp hx)
        · rw [if_neg hc2]
          apply ih
          have hx2 := (mem_append_cons x p done rest).mp hx
          rcases List.mem_append.mp hx2 with h | h
          · exact List.mem_append.mpr (Or.inl h)
          · exact List.mem_append.mpr (Or.inr (mem_insertDesc.mpr (Or.inr h)))

theorem ensure_invariant (w reach maxY : ℚ) (rng : ℕ → ℚ)
    (hw : 120 ≤ w) (hreach : 60 ≤ reach) (hrng : ∀ n, 0 ≤ rng n ∧ rng n < 1) :
    ∀ (fuel k : ℕ) (done todo : List GPlat),
      fuelNeed maxY todo ≤ fuel →
      (∀ p, p ∈ done ++ todo → 0 ≤ p.x ∧ p.x ≤ w) →
      (∀ p, p ∈ done → maxY + jumpHeight ≤ p.y →
        ∃ q ∈ done ++ todo, reachOK reach p q) →
      ∀ p, p ∈ ensure w reach maxY rng fuel k done todo → maxY + jumpHeight ≤ p.y →
        ∃ q ∈ ensure w reach maxY rng fuel k done todo, reachOK reach p q := by
  intro fuel
  induction fuel with
  | zero =>
    intro k done todo hfuel hx hdone p hp hy
    have htodo : todo = [] := fuelNeed_eq_zero (Nat.le_zero.mp hfuel)
    subst htodo
    simp only [ensure] at hp ⊢
    exact hdone p (by simpa using hp) hy
  | succ fuel ih =>
    intro k done todo hfuel hx hdone p hp hy
    cases todo with
    | nil =>
      simp only [ensure] at hp ⊢
      have := hdone p hp hy
      simpa using this
    | cons p0 rest =>
      rw [fuelNeed_cons] at hfuel
      simp only [ensure] at hp ⊢
      by_cases hc1 : anyReachB reach (done ++ rest) p0 = true
      · rw [if_pos hc1] at hp ⊢
        refine ih k (done ++ [p0]) rest (by omega) ?_ ?_ p hp hy
        · intro x hxm
          exact hx x ((mem_append_cons x p0 done rest).mpr hxm)
        · intro x hxm hxy
          rcases List.mem_append.mp hxm with hxd | hxp
          · obtain ⟨q, hq, hqr⟩ := hdone x hxd hxy
            exact ⟨q, (mem_append_cons q p0 done rest).mp hq, hqr⟩
          · have hxp0 : x = p0 := by simpa using hxp
            subst hxp0
            obtain ⟨q, hq, hqr⟩ := anyReachB_iff.mp hc1
            refine ⟨q, ?_, hqr⟩
            rcases List.mem_append.mp hq with h | h
            · exact List.mem_append.mpr (Or.inl (List.mem_append.mpr (Or.inl h)))
            · exact List.mem_append.mpr (Or.inr h)
      · rw [if_neg hc1] at hp ⊢
        by_cases hc2 : synthY p0 (rng k) < maxY
        · rw [if_pos hc2] at hp ⊢
          refine ih k.succ (done ++ [p0]) rest (by omega) ?_ ?_ p hp hy
          · intro x hxm
            exact hx x ((mem_append_cons x p0 done rest).mpr hxm)
          · intro x hxm hxy
            rcases List.mem_append.mp hxm with hxd | hxp
            · obtain ⟨q, hq, hqr⟩ := hdone x hxd hxy
              exact ⟨q, (mem_append_cons q p0 done rest).mp hq, hqr⟩
            · have hxp0 : x = p0 := by simpa using hxp
              subst hxp0
              exfalso
              have := synthY_gt x (rng k) (hrng k).2
              unfold jumpHeight at hxy this
              linarith
        · rw [if_neg hc2] at hp ⊢
          have hp0x := hx p0 (List.mem_append.mpr (Or.inr (List.mem_cons_self _ _)))
          have hsx := synthX_bounds p0 (rng (k + 1)) hw hreach hp0x.1 hp0x.2
            (hrng (k + 1)).1 (hrng (k + 1)).2
          have hsy_le := synthY_le p0 (rng k) (hrng k).1
          have hsy_gt := synthY_gt p0 (rng k) (hrng k).2
          have hmaxY : maxY ≤ synthY p0 (rng k) := not_lt.mp hc2
          refine ih (k + 3) (done ++ [p0])
            (insertDesc ⟨synthX w reach p0 (rng (k + 1)), synthY p0 (rng k), false⟩ rest)
            ?_ ?_ ?_ p hp hy
          · rw [fuelNeed_insertDesc]
            dsimp only
            have : stepsTo maxY (synthY p0 (rng k)) < stepsTo maxY p0.y :=
              stepsTo_lt hmaxY hsy_le
            omega
          · intro x hxm
            rcases List.mem_append.mp hxm with hxd | hxi
            · rcases List.mem_append.mp hxd with h | h
              · exact hx x (List.mem_append.mpr (Or.inl h))
              · have : x = p0 := by simpa using h
                subst this
                exact hp0x
            · rcases mem_insertDesc.mp hxi with h | h
              · subst h
                exact ⟨hsx.2.1, hsx.2.2⟩
              · exact hx x (List.mem_append.mpr (Or.inr (List.mem_cons_of_mem _ h)))
          · intro x hxm hxy
            rcases List.mem_append.mp hxm with hxd | hxp
            · obtain ⟨q, hq, hqr⟩ := hdone x hxd hxy
              refine ⟨q, ?_, hqr⟩
              rcases List.mem_append.mp hq with h | h
              · exact List.mem_append.mpr (Or.inl (List.mem_append.mpr (Or.inl h)))
              · rcases List.mem_cons.mp h with h' | h'
                · exact List.mem_append.mpr
                    (Or.inl (List.mem_append.mpr (Or.inr (by simp [h']))))
                · exact List.mem_append.mpr (Or.inr (mem_insertDesc.mpr (Or.inr h')))
            · have hxp0 : x = p0 := by simpa using hxp
              subst hxp0
              refine ⟨⟨synthX w reach x (rng (k + 1)), synthY x (rng k), false⟩,
                List.mem_append.mpr (Or.inr (mem_insertDesc.mpr (Or.inl rfl))), ?_, ?_, ?_⟩
              · dsimp only
                linarith [synthY_le x (rng k) (hrng k).1]
              · exact hsy_gt
              · exact hsx.1

theorem mem_sortDesc {p : GPlat} {l : List GPlat} : p ∈ sortDesc l ↔ p ∈ l :=
  (List.perm_insertionSort gpGE l).mem_iff

theorem fuelNeed_sortDesc (maxY : ℚ) (l : List GPlat) :
    fuelNeed maxY (sortDesc l) = fuelNeed maxY l :=
  ((List.perm_insertionSort gpGE l).map _).sum_eq

/-- C1 (amended): after the generation post-process, every platform that
does not lie within one maximum jump height of the map ceiling
(`maxY + jumpHeight ≤ p.y`) has another platform strictly above it within
the jump envelope.  (The original claim excepted only the spawn row; the
code skips the synthesis fix whenever the synthesized height would land
above the map ceiling — `if (newY < initialMaxY) continue` — so platforms
near the ceiling, in particular the topmost platform of every level, can
stay without a reachable platform above them.)  The hypotheses state the
shape of every generator input: a viewport at least 120px wide, the
horizontal reach constant (maxVelocityX * jump time ≈ 566) at least 60,
Math.random() draws in [0, 1), platform x positions inside the viewport, and
sufficient fuel for the embedded loop. -/
theorem C1_amended (w reach maxY : ℚ) (rng : ℕ → ℚ) (fuel : ℕ) (l : List GPlat)
    (hw : 120 ≤ w) (hreach : 60 ≤ reach)
    (hrng : ∀ n, 0 ≤ rng n ∧ rng n < 1)
    (hx : ∀ p, p ∈ l → 0 ≤ p.x ∧ p.x ≤ w)
    (hfuel : fuelNeed maxY l ≤ fuel) :
    ∀ p, p ∈ postProcess w reach maxY rng fuel l → maxY + jumpHeight ≤ p.y →
      ∃ q ∈ postProcess w reach maxY rng fuel l,
        q.y < p.y ∧ p.y - q.y ≤ jumpHeight ∧ |q.x - p.x| ≤ reach := by
  intro p hp hy
  unfold postProcess at hp ⊢
  obtain ⟨q, hq, h1, h2, h3⟩ :=
    ensure_invariant w reach maxY rng hw hreach hrng fuel 0 [] (sortDesc l)
      (by rw [fuelNeed_sortDesc]; exact hfuel)
      (by intro x hxm; exact hx x (mem_sortDesc.mp (by simpa using hxm)))
      (by intro x hxm; simp at hxm)
      p hp hy
  refine ⟨q, hq, h1, ?_, h3⟩
  unfold jumpHeight at h2 ⊢
  linarith

/-- C1 witness: the amended theorem applied to a one-platform input on a
500px viewport with ceiling 600, instantiated at the spawn platform
(100, 800): the post-process synthesizes a platform at (60, 674), which is
the reachable platform above it. -/
theorem C1_amended_witness :
    ∃ q ∈ postProcess 500 566 600 (fun _ => 0) 3 [⟨100, 800, false⟩],
      q.y < (800 : ℚ) ∧ (800 : ℚ) - q.y ≤ jumpHeight ∧ |q.x - 100| ≤ 566 :=
  C1_amended 500 566 600 (fun _ => 0) 3 [⟨100, 800, false⟩]
    (by norm_num) (by norm_num) (fun n => by norm_num) (by decide) (by decide)
    ⟨100, 800, false⟩ (by decide) (by decide)

/-- C1 counterexample: on the generation-shaped level `levelC1` (spawn row
at y = 800, ceiling at y = -4200) the post-process leaves the topmost
platform (350, -4151) — not in the spawn row — with no platform strictly
above it within the jump envelope (P.y - Q.y ≤ 180 and |Q.x - P.x| ≤ 566),
because the synthesized fix height -4277 would lie above the map ceiling and
the source skips it (`if (newY < initialMaxY) continue`).  This refutes the
claim as stated. -/
theorem C1_counterexample :
    (⟨350, -4151, false⟩ : GPlat) ∈ outC1 ∧ ((-4151 : ℚ) ≠ 800) ∧
    ∀ q ∈ outC1, ¬(q.y < -4151 ∧ (-4151 : ℚ) - q.y ≤ 180 ∧ |q.x - 350| ≤ 566) := by
  decide

/-! ## Frame-level helper lemmas -/

theorem stInput_rocket (s : GState) : (stInput s).rocketActive = s.rocketActive := by
  unfold stInput; split <;> rfl

theorem stInput_rocketTimer (s : GState) : (stInput s).rocketTimer = s.rocketTimer := by
  unfold stInput; split <;> rfl

theorem update_active (P : Params) (s : GState)
    (h1 : s.isGameOver = false) (h2 : s.gameStarted = true) :
    update P s = stWin P (stFall P (stMonsters P (stCull P (updateSolarStorm P
      (stCamera P (stCollide P (stMove P (stInput s)))))))) := by
  unfold update
  rw [h1, h2]
  rfl

theorem update_inactive (P : Params) (s : GState)
    (h : s.isGameOver = true ∨ s.gameStarted = false) :
    update P s = s := by
  unfold update
  rcases h with h | h <;> rw [h] <;> simp

theorem tail_velocityY (P : Params) (t : GState) :
    (stWin P (stFall P (stMonsters P (stCull P (updateSolarStorm P
      (stCamera P t)))))).velocityY = t.velocityY := by
  rw [stWin_velocityY, stFall_velocityY, stMonsters_velocityY, stCull_velocityY,
    storm_velocityY, stCamera_velocityY]

theorem tail_powercell (P : Params) (t : GState) :
    (stWin P (stFall P (stMonsters P (stCull P (updateSolarStorm P
      (stCamera P t)))))).powercellActive = t.powercellActive := by
  rw [stWin_powercell, stFall_powercell, stMonsters_powercell, stCull_powercell,
    storm_powercell, stCamera_powercell]

theorem tail_rocket (P : Params) (t : GState) :
    (stWin P (stFall P (stMonsters P (stCull P (updateSolarStorm P
      (stCamera P t)))))).rocketActive = t.rocketActive := by
  rw [stWin_rocket, stFall_rocket, stMonsters_rocket, stCull_rocket,
    storm_rocket, stCamera_rocket]

theorem stMove_not_rocket (P : Params) (t : GState) (hjV : P.jumpVelocity < 0)
    (hv : 0 < (stMove P t).velocityY) : (stMove P t).rocketActive = false := by
  by_cases ht : t.rocketActive = true
  · exfalso
    have hvv : (stMove P t).velocityY = -(|P.jumpVelocity| * 0.95) := by
      unfold stMove
      rw [if_pos ht]
    have habs : 0 < |P.jumpVelocity| := abs_pos.mpr (ne_of_lt hjV)
    rw [hvv] at hv
    nlinarith
  · unfold stMove
    rw [if_neg ht]
    simpa using ht

theorem stCollide_hit (P : Params) (m : GState) (i : ℕ) (p : Plat)
    (hra : m.rocketActive = false) (hv : 0 < m.velocityY)
    (hfind : findHitIdx m.alienX m.alienY m.platforms = some i)
    (hp : m.platforms[i]? = some p) :
    stCollide P m = resolveHit P m i p := by
  unfold stCollide
  rw [hra]
  simp only [Bool.not_false, Bool.true_and, decide_eq_true hv, hfind, hp]
  rfl

theorem stCollide_skip (P : Params) (m : GState) (hv : ¬0 < m.velocityY) :
    stCollide P m = m := by
  unfold stCollide
  simp [hv]

theorem eraseIdx_set_eq {α : Type} (l : List α) (i : ℕ) (a : α) :
    (l.set i a).eraseIdx i = l.eraseIdx i := by
  induction l generalizing i with
  | nil => rfl
  | cons x xs ih =>
    cases i with
    | zero => rfl
    | succ n => simp [List.set, List.eraseIdx, ih]

theorem resolveHit_broken (P : Params) (m : GState) (i : ℕ) (p : Plat)
    (hb : p.broken = true)
    (hnc : ∀ u, p.powerup = some u → u.kind ≠ PKind.powercell) :
    (resolveHit P m i p).platforms = m.platforms.eraseIdx i ∧
    (resolveHit P m i p).velocityY =
      (if m.powercellActive then P.jumpVelocity * 1.7 else P.jumpVelocity) := by
  unfold resolveHit
  rcases hpu : p.powerup with _ | u
  · simp only [hpu, hb, if_pos rfl]
    exact ⟨rfl, rfl⟩
  · cases hk : u.kind
    · simp only [hpu, hk, hb, if_pos rfl]
      exact ⟨eraseIdx_set_eq _ _ _, rfl⟩
    · exact absurd hk (hnc u hpu)

theorem resolveHit_boost (P : Params) (m : GState) (i : ℕ) (p : Plat)
    (hpc : m.powercellActive = true) :
    (resolveHit P m i p).velocityY = P.jumpVelocity * 1.7 ∧
    (resolveHit P m i p).powercellActive = false := by
  unfold resolveHit
  simp only [if_pos hpc]
  rcases hpu : p.powerup with _ | u
  · simp only [hpu]
    split <;> exact ⟨rfl, rfl⟩
  · cases hk : u.kind
    · simp only [hpu, hk]
      split <;> exact ⟨rfl, rfl⟩
    · simp only [hpu, hk]
      split <;> exact ⟨rfl, rfl⟩

theorem stMove_rocket_on (P : Params) (t : GState) (ht : t.rocketActive = true) :
    (stMove P t).velocityY = -(|P.jumpVelocity| * 0.95) ∧
    (stMove P t).rocketActive =
      (if t.rocketTimer - P.dt ≤ 0 then false else true) ∧
    (stMove P t).rocketTimer = t.rocketTimer - P.dt := by
  unfold stMove
  rw [if_pos ht]
  refine ⟨rfl, ?_, rfl⟩
  rw [ht]

theorem storm_cap (P : Params) (t : GState) :
    ((updateSolarStorm P t).solarStormY - (updateSolarStorm P t).highestY) -
      ((updateSolarStorm P t).alienY - 24) ≤ 500 ∧
    (updateSolarStorm P t).solarStormY ≤ t.solarStormY - solarStormSpeed := by
  unfold updateSolarStorm stormMove
  dsimp only
  split <;> split
  · constructor
    · dsimp only; linarith
    · dsimp only
      next hclamp _ => linarith
  · constructor
    · dsimp only; linarith
    · dsimp only
      next hclamp _ => linarith
  · constructor
    · dsimp only
      next hclamp _ => linarith
    · dsimp only; linarith
  · constructor
    · dsimp only
      next hclamp _ => linarith
    · dsimp only; linarith

/-! ## Claim theorems: the frame loop -/

/-- C2: the claim says that once `isGameOver` is set within a frame, every
later lethal-condition check in that frame is a no-op and the terminal
callback fires only once.  The code violates this — the monster loop has no
terminal guard and no break, so each additional overlapping monster fires
showGameOver() again.  Evaluating the frame at a state with two monsters
overlapping the alien: showGameOver() runs twice (two overlays, two
scheduled onGameOver callbacks). -/
theorem C2_double_fire :
    (update baseParams twoMonsterState).gameOverCount = 2 ∧
    (update baseParams twoMonsterState).isGameOver = true := by
  decide

/-- C3 counterexample: at a frame state in which the climbed height has
passed 5000 and a monster overlaps the alien, the frame fires BOTH
showGameOver() (from the monster loop, first) and showWinOverlay() — the
game-over overlay is not suppressed, refuting "win takes precedence and
only the win overlay/outcome results from that frame". -/
theorem C3_counterexample :
    (update baseParams winCollideState).winCount = 1 ∧
    (update baseParams winCollideState).gameOverCount = 1 ∧
    (update baseParams winCollideState).isGameOver = true := by
  decide

/-- C3 (amended): if in one frame the net climbed height reaches 5000 and a
monster collision is also detected, the run does end (`isGameOver`), and the
win overlay fires exactly once — but the game-over overlay also fires (the
monster check runs first and the win check does not take precedence; both
overlays and both scheduled callbacks result from that frame). -/
theorem C3_amended (P : Params) (s : GState)
    (h1 : s.isGameOver = false) (h2 : s.gameStarted = true)
    (hwin : P.spawnY - (stMove P (stInput s)).alienWorldY ≥ 5000)
    (hhit : 0 < monsterHits P (stCull P (updateSolarStorm P (stCamera P
      (stCollide P (stMove P (stInput s))))))) :
    (update P s).winCount = s.winCount + 1 ∧
    s.gameOverCount < (update P s).gameOverCount ∧
    (update P s).isGameOver = true := by
  rw [update_active P s h1 h2]
  have hw8 : P.spawnY - (stFall P (stMonsters P (stCull P (updateSolarStorm P
      (stCamera P (stCollide P (stMove P (stInput s)))))))).alienWorldY ≥ 5000 := by
    rw [stFall_worldY, stMonsters_worldY, stCull_worldY, storm_worldY,
      stCamera_worldY, stCollide_worldY]
    exact hwin
  refine ⟨?_, ?_, (stWin_mark P _ hw8).2⟩
  · rw [(stWin_mark P _ hw8).1, stFall_winCount, stMonsters_winCount, stCull_winCount,
      storm_winCount, stCamera_winCount, stCollide_winCount, stMove_winCount,
      stInput_winCount]
  · have e4 : (stCamera P (stCollide P (stMove P (stInput s)))).gameOverCount
        = s.gameOverCount := by
      rw [stCamera_gameOverCount, stCollide_gameOverCount, stMove_gameOverCount,
        stInput_gameOverCount]
    have l5 := storm_gameOverCount_ge P (stCamera P (stCollide P (stMove P (stInput s))))
    have e6 := stCull_gameOverCount P (updateSolarStorm P (stCamera P (stCollide P
      (stMove P (stInput s)))))
    have e7 := stMonsters_gameOverCount P (stCull P (updateSolarStorm P (stCamera P
      (stCollide P (stMove P (stInput s))))))
    have l8 := stFall_gameOverCount_ge P (stMonsters P (stCull P (updateSolarStorm P
      (stCamera P (stCollide P (stMove P (stInput s)))))))
    have e9 := stWin_gameOverCount P (stFall P (stMonsters P (stCull P (updateSolarStorm P
      (stCamera P (stCollide P (stMove P (stInput s))))))))
    omega

/-- C3 witness: the amended claim at the concrete simultaneous win/collision
frame state. -/
theorem C3_amended_witness :
    (update baseParams winCollideState).winCount = winCollideState.winCount + 1 ∧
    winCollideState.gameOverCount < (update baseParams winCollideState).gameOverCount ∧
    (update baseParams winCollideState).isGameOver = true :=
  C3_amended baseParams winCollideState rfl rfl (by decide) (by decide)

/-- C4: the score is monotonically non-decreasing across every frame, and it
changes only in the camera-follow step: the frame adds exactly
floor(delta) where delta = h/2 - alienY (after physics and collision) is the
frame's upward camera shift, and 0 when the camera does not shift or the
frame is inactive — so the score is independent of horizontal motion and of
falling. -/
theorem C4_score_monotone (P : Params) (s : GState) :
    s.score ≤ (update P s).score ∧
    (update P s).score = s.score +
      (if s.isGameOver || !s.gameStarted then 0
       else if (stCollide P (stMove P (stInput s))).alienY < P.h / 2 then
         Rat.floor (P.h / 2 - (stCollide P (stMove P (stInput s))).alienY)
       else 0) := by
  by_cases hg : (s.isGameOver || !s.gameStarted) = true
  · have e : update P s = s := by
      unfold update
      rw [if_pos hg]
    rw [e, if_pos hg]
    omega
  · have e : update P s = stWin P (stFall P (stMonsters P (stCull P (updateSolarStorm P
        (stCamera P (stCollide P (stMove P (stInput s)))))))) := by
      unfold update
      rw [if_neg hg]
    have heq : (update P s).score = s.score +
        (if (stCollide P (stMove P (stInput s))).alienY < P.h / 2 then
          Rat.floor (P.h / 2 - (stCollide P (stMove P (stInput s))).alienY)
        else 0) := by
      rw [e, stWin_score, stFall_score, stMonsters_score, stCull_score, storm_score,
        stCamera_score, stCollide_score, stMove_score, stInput_score]
    refine ⟨?_, by rw [heq, if_neg hg]⟩
    rw [heq]
    split
    · next hcam =>
      have hfl : (0 : ℤ) ≤ Rat.floor (P.h / 2 - (stCollide P (stMove P (stInput s))).alienY) := by
        rw [Rat.le_floor]
        push_cast
        linarith
      omega
    · omega

/-- C5: after the hazard update of an active frame, the storm's screen-space
leading edge (solarStormY - highestY, the world edge re-expressed at the
current camera anchor) is at most the 500px cap below the alien's top, and
the storm's world edge solarStormY never increases across a frame: the fixed
climb subtracts solarStormSpeed and the clamp can only pull the edge
further up. -/
theorem C5_hazard_cap (P : Params) (s : GState)
    (h1 : s.isGameOver = false) (h2 : s.gameStarted = true) :
    ((update P s).solarStormY - (update P s).highestY) -
      ((update P s).alienY - 24) ≤ 500 ∧
    (update P s).solarStormY ≤ s.solarStormY := by
  rw [update_active P s h1 h2]
  rw [stWin_solar, stFall_solar, stMonsters_solar, stCull_solar,
    stWin_highestY, stFall_highestY, stMonsters_highestY, stCull_highestY,
    stWin_alienY, stFall_alienY, stMonsters_alienY, stCull_alienY]
  have hc := storm_cap P (stCamera P (stCollide P (stMove P (stInput s))))
  refine ⟨hc.1, ?_⟩
  have h3 : (stCamera P (stCollide P (stMove P (stInput s)))).solarStormY
      = s.solarStormY := by
    rw [stCamera_solar, stCollide_solar, stMove_solar, stInput_solar]
  have h4 := hc.2
  rw [h3] at h4
  unfold solarStormSpeed at h4
  linarith

/-- C5 witness: the hazard cap and monotonicity at the concrete base state. -/
theorem C5_hazard_cap_witness :
    ((update baseParams baseState).solarStormY - (update baseParams baseState).highestY) -
      ((update baseParams baseState).alienY - 24) ≤ 500 ∧
    (update baseParams baseState).solarStormY ≤ baseState.solarStormY :=
  C5_hazard_cap baseParams baseState rfl rfl

/-- C6: in a frame in which the camera shifts by delta = h/2 - alienY > 0,
the camera-follow step (update lines 544-564) adds exactly delta to the
screen-space y of every platform, every pickup sprite, every monster, the
storm sprite and the background tiling (preserving all relative positions),
pins the alien back to the viewport midpoint, and decreases the camera
anchor highestY by delta. -/
theorem C6_camera_shift (P : Params) (s : GState) (h : s.alienY < P.h / 2) :
    (stCamera P s).alienY = P.h / 2 ∧
    (stCamera P s).highestY = s.highestY - (P.h / 2 - s.alienY) ∧
    (stCamera P s).stormScreenY = s.stormScreenY + (P.h / 2 - s.alienY) ∧
    (stCamera P s).bgY = s.bgY + (P.h / 2 - s.alienY) ∧
    (∀ i : ℕ, (stCamera P s).platforms[i]? =
      (s.platforms[i]?).map (shiftPlat (P.h / 2 - s.alienY))) ∧
    (∀ p : Plat, (shiftPlat (P.h / 2 - s.alienY) p).y = p.y + (P.h / 2 - s.alienY) ∧
      (shiftPlat (P.h / 2 - s.alienY) p).powerup =
        p.powerup.map (fun u => { u with py := u.py + (P.h / 2 - s.alienY) })) ∧
    (∀ i : ℕ, (stCamera P s).monsters[i]? =
      (s.monsters[i]?).map (fun m => { m with y := m.y + (P.h / 2 - s.alienY) })) := by
  unfold stCamera
  rw [if_pos h]
  refine ⟨rfl, rfl, rfl, rfl, ?_, ?_, ?_⟩
  · intro i
    simp [List.getElem?_map]
  · intro p
    exact ⟨rfl, rfl⟩
  · intro i
    simp [List.getElem?_map]

/-- C6 witness: the camera-shift relation at a concrete shifting state with
a pickup-carrying platform and a monster. -/
theorem C6_camera_shift_witness :
    camState.alienY < baseParams.h / 2 ∧
    ((stCamera baseParams camState).alienY = baseParams.h / 2 ∧
    (stCamera baseParams camState).highestY =
      camState.highestY - (baseParams.h / 2 - camState.alienY) ∧
    (stCamera baseParams camState).stormScreenY =
      camState.stormScreenY + (baseParams.h / 2 - camState.alienY) ∧
    (stCamera baseParams camState).bgY =
      camState.bgY + (baseParams.h / 2 - camState.alienY) ∧
    (∀ i : ℕ, (stCamera baseParams camState).platforms[i]? =
      (camState.platforms[i]?).map (shiftPlat (baseParams.h / 2 - camState.alienY))) ∧
    (∀ p : Plat, (shiftPlat (baseParams.h / 2 - camState.alienY) p).y =
        p.y + (baseParams.h / 2 - camState.alienY) ∧
      (shiftPlat (baseParams.h / 2 - camState.alienY) p).powerup =
        p.powerup.map (fun u =>
          { u with py := u.py + (baseParams.h / 2 - camState.alienY) })) ∧
    (∀ i : ℕ, (stCamera baseParams camState).monsters[i]? =
      (camState.monsters[i]?).map (fun m =>
        { m with y := m.y + (baseParams.h / 2 - camState.alienY) }))) :=
  ⟨by decide, C6_camera_shift baseParams camState (by decide)⟩

/-- C7: when the alien, falling, lands on a collapsing ('broken') platform
(the first platform in iteration order passing the hit test) that does not
carry a powercell pickup (generated levels never attach pickups to broken
platforms), the collision step removes the platform — together with its
pickup sprite, if any — from the active set, and the frame leaves the
vertical velocity at the jump impulse, multiplied by 1.7 when a
bounce-boost was pending; the bounce and the removal happen in the same
frame. -/
theorem C7_broken_atomic (P : Params) (s : GState) (i : ℕ) (p : Plat)
    (h1 : s.isGameOver = false) (h2 : s.gameStarted = true)
    (hjV : P.jumpVelocity < 0)
    (hv : 0 < (stMove P (stInput s)).velocityY)
    (hfind : findHitIdx (stMove P (stInput s)).alienX (stMove P (stInput s)).alienY
      (stMove P (stInput s)).platforms = some i)
    (hp : (stMove P (stInput s)).platforms[i]? = some p)
    (hb : p.broken = true)
    (hnc : ∀ u, p.powerup = some u → u.kind ≠ PKind.powercell) :
    (stCollide P (stMove P (stInput s))).platforms =
      (stMove P (stInput s)).platforms.eraseIdx i ∧
    (update P s).velocityY =
      (if (stMove P (stInput s)).powercellActive then P.jumpVelocity * 1.7
       else P.jumpVelocity) := by
  have hra := stMove_not_rocket P (stInput s) hjV hv
  have hcol := stCollide_hit P (stMove P (stInput s)) i p hra hv hfind hp
  have hres := resolveHit_broken P (stMove P (stInput s)) i p hb hnc
  refine ⟨by rw [hcol]; exact hres.1, ?_⟩
  rw [update_active P s h1 h2, tail_velocityY, hcol]
  exact hres.2

/-- C7 witness: a concrete falling landing on a collapsing platform. -/
theorem C7_broken_atomic_witness :
    (stCollide baseParams (stMove baseParams (stInput brokenLandState))).platforms =
      (stMove baseParams (stInput brokenLandState)).platforms.eraseIdx 0 ∧
    (update baseParams brokenLandState).velocityY =
      (if (stMove baseParams (stInput brokenLandState)).powercellActive then
        baseParams.jumpVelocity * 1.7 else baseParams.jumpVelocity) :=
  C7_broken_atomic baseParams brokenLandState 0 ⟨200, 380, true, none⟩ rfl rfl
    (by decide) (by decide) (by decide) (by decide) rfl
    (fun u hu => Option.noConfusion hu)

/-- C8: if the bounce-boost (powercell) flag is pending when the alien lands
on any platform, the frame leaves the vertical velocity at
jumpVelocity * 1.7 and the pending flag is cleared by that same landing, so
it is never applied twice. -/
theorem C8_boost_consumed (P : Params) (s : GState) (i : ℕ) (p : Plat)
    (h1 : s.isGameOver = false) (h2 : s.gameStarted = true)
    (hjV : P.jumpVelocity < 0)
    (hv : 0 < (stMove P (stInput s)).velocityY)
    (hfind : findHitIdx (stMove P (stInput s)).alienX (stMove P (stInput s)).alienY
      (stMove P (stInput s)).platforms = some i)
    (hp : (stMove P (stInput s)).platforms[i]? = some p)
    (hpc : (stMove P (stInput s)).powercellActive = true) :
    (update P s).velocityY = P.jumpVelocity * 1.7 ∧
    (update P s).powercellActive = false := by
  have hra := stMove_not_rocket P (stInput s) hjV hv
  have hcol := stCollide_hit P (stMove P (stInput s)) i p hra hv hfind hp
  have hres := resolveHit_boost P (stMove P (stInput s)) i p hpc
  constructor
  · rw [update_active P s h1 h2, tail_velocityY, hcol]
    exact hres.1
  · rw [update_active P s h1 h2, tail_powercell, hcol]
    exact hres.2

/-- C8 witness: a concrete pending-boost landing. -/
theorem C8_boost_consumed_witness :
    (update baseParams boostLandState).velocityY = baseParams.jumpVelocity * 1.7 ∧
    (update baseParams boostLandState).powercellActive = false :=
  C8_boost_consumed baseParams boostLandState 0 ⟨200, 380, false, none⟩ rfl rfl
    (by decide) (by decide) (by decide) (by decide) (by decide)

/-- C10: while the timed thrust (rocket) is active at the start of a frame,
the whole platform-collision resolution is skipped (no landing, bounce or
pickup: the collision step is the identity), the frame sets the vertical
velocity to -0.95 * |jumpVelocity| with gravity not applied, and the thrust
stays active exactly until its timer, decremented by the frame's deltaMS,
reaches zero. -/
theorem C10_rocket_thrust (P : Params) (s : GState)
    (h1 : s.isGameOver = false) (h2 : s.gameStarted = true)
    (hjV : P.jumpVelocity < 0) (hr : s.rocketActive = true) :
    (update P s).velocityY = -(|P.jumpVelocity| * 0.95) ∧
    stCollide P (stMove P (stInput s)) = stMove P (stInput s) ∧
    (update P s).rocketActive = (if s.rocketTimer - P.dt ≤ 0 then false else true) := by
  have hr1 : (stInput s).rocketActive = true := by
    rw [stInput_rocket]
    exact hr
  have hm := stMove_rocket_on P (stInput s) hr1
  have habs : 0 < |P.jumpVelocity| := abs_pos.mpr (ne_of_lt hjV)
  have hneg : ¬0 < (stMove P (stInput s)).velocityY := by
    rw [hm.1]
    nlinarith
  have hskip := stCollide_skip P (stMove P (stInput s)) hneg
  refine ⟨?_, hskip, ?_⟩
  · rw [update_active P s h1 h2, tail_velocityY, hskip]
    exact hm.1
  · rw [update_active P s h1 h2, tail_rocket, hskip, hm.2.1, stInput_rocketTimer]

/-- C10 witness: the thrust frame at a concrete state with 4000ms left. -/
theorem C10_rocket_thrust_witness :
    (update baseParams rocketRunState).velocityY =
      -(|baseParams.jumpVelocity| * 0.95) ∧
    stCollide baseParams (stMove baseParams (stInput rocketRunState)) =
      stMove baseParams (stInput rocketRunState) ∧
    (update baseParams rocketRunState).rocketActive =
      (if rocketRunState.rocketTimer - baseParams.dt ≤ 0 then false else true) :=
  C10_rocket_thrust baseParams rocketRunState rfl rfl (by decide) rfl

/-! ## Claim C9: the steering invariant -/

theorem update_keyboardTilt (P : Params) (s : GState) :
    (update P s).keyboardTilt = s.keyboardTilt := by
  by_cases hg : (s.isGameOver || !s.gameStarted) = true
  · unfold update
    rw [if_pos hg]
  · unfold update
    rw [if_neg hg]
    rw [stWin_keyboardTilt, stFall_keyboardTilt, stMonsters_keyboardTilt,
      stCull_keyboardTilt, storm_keyboardTilt, stCamera_keyboardTilt,
      stCollide_keyboardTilt, stMove_keyboardTilt, stInput_keyboardTilt]

theorem update_tilt (P : Params) (s : GState) :
    (update P s).tilt = s.tilt ∨ (update P s).tilt = s.tilt * 0.9 := by
  by_cases hg : (s.isGameOver || !s.gameStarted) = true
  · left
    unfold update
    rw [if_pos hg]
  · unfold update
    rw [if_neg hg]
    rw [stWin_tilt, stFall_tilt, stMonsters_tilt, stCull_tilt, storm_tilt,
      stCamera_tilt, stCollide_tilt, stMove_tilt]
    exact stInput_tilt s

theorem clamp_bound (tv : ℚ) : |max (-30) (min 30 tv) / 30 * 0.8| ≤ 0.8 := by
  have h1 : (-30 : ℚ) ≤ max (-30) (min 30 tv) := le_max_left _ _
  have h2 : max (-30 : ℚ) (min 30 tv) ≤ 30 := max_le (by norm_num) (min_le_left _ _)
  have h3 : |max (-30 : ℚ) (min 30 tv)| ≤ 30 := abs_le.mpr ⟨h1, h2⟩
  rw [abs_mul, abs_div]
  have h4 : |(30 : ℚ)| = 30 := by norm_num
  have h5 : |(0.8 : ℚ)| = 0.8 := by norm_num
  rw [h4, h5]
  have h6 : |max (-30 : ℚ) (min 30 tv)| / 30 ≤ 1 := by
    rw [div_le_one (by norm_num : (0 : ℚ) < 30)]
    exact h3
  nlinarith [abs_nonneg (max (-30 : ℚ) (min 30 tv))]

theorem steerInv_handleTilt (g b : Option ℚ) (s : GState) (h : steerInv s) :
    steerInv (handleTilt g b s) := by
  unfold handleTilt
  split
  · exact h
  · cases g with
    | none => exact h
    | some ga =>
      cases b with
      | none => exact h
      | some be => exact ⟨clamp_bound _, h.2⟩

theorem steerInv_step (P : Params) (s : GState) (e : Event) (h : steerInv s) :
    steerInv (step P s e) := by
  cases e with
  | tiltEv g b => exact steerInv_handleTilt g b s h
  | keyDown k =>
    show steerInv (handleKeyDown k s)
    unfold handleKeyDown
    split
    · exact ⟨h.1, Or.inr (Or.inr rfl)⟩
    · split
      · exact ⟨h.1, Or.inr (Or.inl rfl)⟩
      · exact h
  | keyUp k =>
    show steerInv (handleKeyUp k s)
    unfold handleKeyUp
    split
    · exact ⟨h.1, Or.inl rfl⟩
    · exact h
  | orientEv =>
    refine ⟨?_, h.2⟩
    show |(0 : ℚ)| ≤ 0.8
    norm_num
  | startEv =>
    refine ⟨?_, Or.inl rfl⟩
    show |(0 : ℚ)| ≤ 0.8
    norm_num
  | frameEv =>
    show steerInv (update P s)
    constructor
    · rcases update_tilt P s with h' | h' <;> rw [h']
      · exact h.1
      · rw [abs_mul]
        have h09 : |(0.9 : ℚ)| = 0.9 := by norm_num
        rw [h09]
        nlinarith [h.1, abs_nonneg s.tilt]
    · rw [update_keyboardTilt]
      exact h.2

/-- C9: starting from any state satisfying the steering-state invariant (as
the scene's initial state does: tilt = 0, keyboardTilt = 0), after any
sequence of tilt readings, key events, orientation changes, game starts and
frames, the invariant still holds — the dead-zoned, clamped, rescaled and
0.8-damped tilt contribution has magnitude at most 0.8 and the keyboard
contribution is exactly ±0.4 while held and 0 when released — and the
effective steering scalar consumed by the physics step lies in [-1, 1]. -/
theorem C9_steering_bounded (P : Params) (s : GState) (evs : List Event)
    (h : steerInv s) :
    steerInv (runEvents P s evs) ∧ |steering (runEvents P s evs)| ≤ 1 := by
  have hinv : ∀ (evs' : List Event) (s' : GState), steerInv s' →
      steerInv (runEvents P s' evs') := by
    intro evs'
    induction evs' with
    | nil => intro s' h'; exact h'
    | cons e rest ih =>
      intro s' h'
      exact ih (step P s' e) (steerInv_step P s' e h')
  have h' := hinv evs s h
  refine ⟨h', ?_⟩
  unfold steering
  split
  · rcases h'.2 with h0 | h0 | h0 <;> rw [h0] <;> decide
  · calc |(runEvents P s evs).tilt| ≤ 0.8 := h'.1
      _ ≤ 1 := by norm_num

/-- C9 witness: the bound on a concrete event sequence mixing a key press, a
frame and a tilt reading, from the scene's initial steering state. -/
theorem C9_steering_bounded_witness :
    steerInv baseState ∧
    (steerInv (runEvents baseParams baseState
        [Event.keyDown "a", Event.frameEv, Event.tiltEv (some 20) (some 3)]) ∧
      |steering (runEvents baseParams baseState
        [Event.keyDown "a", Event.frameEv, Event.tiltEv (some 20) (some 3)])| ≤ 1) := by
  have hb : steerInv baseState := by
    constructor
    · show |(0 : ℚ)| ≤ 0.8
      norm_num
    · exact Or.inl rfl
  exact ⟨hb, C9_steering_bounded baseParams baseState _ hb⟩
